import Mathlib

/-!
Verification development for the image ingestion pipeline of
`src/app.py` (`process_image` and its callers).

The pipeline is shallowly embedded: byte strings are `List Nat`
(values 0..255), base64 decoding follows CPython's
`binascii.a2b_base64` in non-strict mode (the mode `base64.b64decode`
uses by default), decoded images are a structure carrying mode, size,
EXIF orientation, palette, and a pixel map, and the external
PIL/libjpeg computations that the pipeline only passes data through
(container sniffing, Lanczos resampling, JPEG byte serialisation) are
parameters `Decoder`, `Resampler`, `Encoder` of the pipeline function.
Python float arithmetic on the metric values is modelled by exact
rational arithmetic; for the magnitudes the pipeline produces
(byte lengths up to 10 MiB + 1) the decimal roundings computed agree
with the float64 computation except on exact decimal ties of the
compression ratio, which the theorems below do not depend on.
-/

/-! ## Configuration constants (src/app.py lines 23-26) -/

def MAX_IMAGE_SIZE : Nat × Nat := (1920, 1080)

def JPEG_QUALITY : Nat := 85

def MAX_FILE_SIZE_MB : Nat := 10

/-! ## Base64 decoding: CPython `binascii.a2b_base64`, non-strict mode -/

/-- Value of a base64 alphabet character (`table_a2b_base64`):
`A`-`Z` are 0-25, `a`-`z` are 26-51, `0`-`9` are 52-61, `+` is 62,
`/` is 63; everything else is not in the alphabet. -/
def b64val (c : Nat) : Option Nat :=
  if 65 ≤ c ∧ c ≤ 90 then some (c - 65)
  else if 97 ≤ c ∧ c ≤ 122 then some (c - 71)
  else if 48 ≤ c ∧ c ≤ 57 then some (c + 4)
  else if c = 43 then some 62
  else if c = 47 then some 63
  else none

/-- The decode loop of CPython's `binascii.a2b_base64` with
`strict_mode=False`: characters outside the alphabet are skipped, a
pad `=` at quad position >= 2 that completes a quad ends the decode,
and leftover state at the end of input is an error ("Incorrect
padding", or the 1-mod-4 data character count error).  Arguments:
input characters, quad position, leftover bits, pad count, data
character count, output accumulator (reversed). -/
def a2b_base64 : List Nat → Nat → Nat → Nat → Nat → List Nat → Except String (List Nat)
  | [], quadPos, _, _, ndata, acc =>
    if quadPos = 0 then .ok acc.reverse
    else if quadPos = 1 then
      .error ("Invalid base64-encoded string: number of data characters (" ++
        toString ndata ++ ") cannot be 1 more than a multiple of 4")
    else .error "Incorrect padding"
  | c :: rest, quadPos, leftchar, pads, ndata, acc =>
    if c = 61 then
      if 2 ≤ quadPos then
        if 4 ≤ quadPos + (pads + 1) then .ok acc.reverse
        else a2b_base64 rest quadPos leftchar (pads + 1) ndata acc
      else a2b_base64 rest quadPos leftchar pads ndata acc
    else
      match b64val c with
      | none => a2b_base64 rest quadPos leftchar pads ndata acc
      | some v =>
        match quadPos with
        | 0 => a2b_base64 rest 1 v 0 (ndata + 1) acc
        | 1 => a2b_base64 rest 2 (v % 16) 0 (ndata + 1) ((leftchar * 4 + v / 16) :: acc)
        | 2 => a2b_base64 rest 3 (v % 4) 0 (ndata + 1) ((leftchar * 16 + v / 4) :: acc)
        | _ => a2b_base64 rest 0 0 0 (ndata + 1) ((leftchar * 64 + v) :: acc)

/-- Python `base64.b64decode` on a `str` argument: the string must be
ASCII (else `ValueError`), then `binascii.a2b_base64` decodes it. -/
def b64decode (s : String) : Except String (List Nat) :=
  let cs := s.data.map Char.toNat
  if cs.all (fun c => c < 128) then a2b_base64 cs 0 0 0 0 []
  else .error "string argument should contain only ASCII characters"

/-- Prefix stripping (src/app.py lines 38-41): if the string contains a
comma, split once at the first comma and keep the suffix. -/
def extractPayload (s : String) : String :=
  if s.data.contains ',' then ⟨(s.data.dropWhile (fun c => c != ',')).tail⟩ else s

/-! ## Base64 encoding (Python `base64.b64encode`) -/

/-- Character (as a byte) of a 6-bit value in the base64 alphabet. -/
def b64chr (i : Nat) : Nat :=
  if i < 26 then 65 + i
  else if i < 52 then 71 + i
  else if i < 62 then i - 4
  else if i = 62 then 43 else 47

/-- Standard base64 encoding of a byte list, with `=` padding. -/
def b64encode : List Nat → List Nat
  | [] => []
  | [a] => [b64chr (a / 4), b64chr (a % 4 * 16), 61, 61]
  | [a, b] => [b64chr (a / 4), b64chr (a % 4 * 16 + b / 16), b64chr (b % 16 * 4), 61]
  | a :: b :: c :: rest =>
    b64chr (a / 4) :: b64chr (a % 4 * 16 + b / 16) :: b64chr (b % 16 * 4 + c / 64) ::
      b64chr (c % 64) :: b64encode rest

/-- Byte values (all < 128 in base64 output) back to a Lean string. -/
def natsToString (l : List Nat) : String := ⟨l.map Char.ofNat⟩

/-! ## Images

A decoded raster image as the pipeline sees one through PIL: a mode, a
size, the EXIF orientation tag (0 when absent), a palette (used by
`P`-mode images), and the pixel map.  A pixel is a 4-tuple of channel
values 0..255 in PIL band order, unused channels 0: `L` stores
`(l,0,0,0)`, `LA` stores `(l,a,0,0)`, `RGB` stores `(r,g,b,0)`,
`RGBA` stores `(r,g,b,a)`, `P` stores `(index,0,0,0)`. -/

abbrev Pix := Nat × Nat × Nat × Nat

inductive Mode
  | L
  | LA
  | P
  | RGB
  | RGBA
deriving DecidableEq

/-- Whether a PIL mode carries an alpha (transparency) channel. -/
def Mode.hasAlphaChannel : Mode → Bool
  | .LA => true
  | .RGBA => true
  | _ => false

structure Img where
  mode : Mode
  width : Nat
  height : Nat
  orientation : Nat
  palette : Nat → Nat × Nat × Nat
  px : Nat → Nat → Pix

/-- PIL's container sniffing plus pixel decoding (`Image.open`):
external to the repository, a parameter of the pipeline.  `none`
models `UnidentifiedImageError`. -/
abbrev Decoder := List Nat → Option Img

/-- PIL's resampling kernel (`Image.resize` with `LANCZOS`): external,
a parameter.  Given the source image and the target size it produces
the resampled pixel map. -/
abbrev Resampler := Img → Nat → Nat → Nat → Nat → Pix

/-- libjpeg serialisation (`image.save(format='JPEG', quality=85,
optimize=True, progressive=True)`): external, a parameter producing
the output bytes. -/
abbrev Encoder := Img → List Nat

/-- `ImageOps.exif_transpose` (src/app.py line 54): apply the
rotation/flip implied by the EXIF orientation tag (values 2-8), then
drop the tag.  Orientation absent or 1 leaves the image untouched. -/
def exif_transpose (img : Img) : Img :=
  let w := img.width
  let h := img.height
  match img.orientation with
  | 2 => { img with orientation := 0, px := fun x y => img.px (w - 1 - x) y }
  | 3 => { img with orientation := 0, px := fun x y => img.px (w - 1 - x) (h - 1 - y) }
  | 4 => { img with orientation := 0, px := fun x y => img.px x (h - 1 - y) }
  | 5 => { img with orientation := 0, width := h, height := w, px := fun x y => img.px y x }
  | 6 => { img with orientation := 0, width := h, height := w, px := fun x y => img.px y (h - 1 - x) }
  | 7 => { img with orientation := 0, width := h, height := w, px := fun x y => img.px (w - 1 - y) (h - 1 - x) }
  | 8 => { img with orientation := 0, width := h, height := w, px := fun x y => img.px (w - 1 - y) x }
  | _ => img

/-! ## Color-mode normalization (src/app.py lines 56-64) -/

/-- Pillow's `MULDIV255` macro (`Paste.c`): exact round-to-nearest of
`a*b/255` computed as `tmp = a*b + 128; ((tmp >> 8) + tmp) >> 8`. -/
def muldiv255 (a b : Nat) : Nat := ((a * b + 128) / 256 + (a * b + 128)) / 256

/-- Pillow's `BLEND` macro: the masked paste of `src` over background
`bg` with 8-bit alpha `mask`. -/
def pasteBlend (mask bg src : Nat) : Nat := muldiv255 bg (255 - mask) + muldiv255 src mask

/-- The mode-normalization block: modes `RGB` and `L` pass through;
`RGBA` is pasted onto a white `RGB` background using its alpha channel
as the mask (`background.paste(image, mask=image.split()[-1])`); every
other mode goes through `image.convert('RGB')`, which replicates the
luminance of `L`/`LA` sources (dropping any alpha) and looks palette
indices up for `P` sources. -/
def normalizeMode (img : Img) : Img :=
  if img.mode = .RGB ∨ img.mode = .L then img
  else if img.mode = .RGBA then
    { img with
      mode := .RGB
      px := fun x y =>
        let p := img.px x y
        (pasteBlend p.2.2.2 255 p.1, pasteBlend p.2.2.2 255 p.2.1,
          pasteBlend p.2.2.2 255 p.2.2.1, 0) }
  else
    { img with
      mode := .RGB
      px := fun x y =>
        match img.mode with
        | .P =>
          let t := img.palette (img.px x y).1
          (t.1, t.2.1, t.2.2, 0)
        | _ =>
          let l := (img.px x y).1
          (l, l, l, 0) }

/-! ## Bounding resize (src/app.py lines 66-68, Pillow `Image.thumbnail`) -/

/-- Computable floor of a rational (`Rat.floor_def`: the floor is
`num / den` under Euclidean integer division). -/
def qfloor (q : ℚ) : ℤ := q.num / q.den

/-- Computable ceiling of a rational. -/
def qceil (q : ℚ) : ℤ := -qfloor (-q)

/-- Pillow `Image.thumbnail`'s `round_aspect`: of floor and ceiling of
`number` take the one with the smaller key (the floor on ties, as
Python's `min`), but at least 1. -/
def round_aspect (q : ℚ) (key : ℤ → ℚ) : ℤ :=
  max (if key (qfloor q) ≤ key (qceil q) then qfloor q else qceil q) 1

/-- The size Pillow `Image.thumbnail((1920, 1080))` selects for a
`w × h` image: unchanged when the box already contains it, otherwise
the aspect-preserving fit, rounding the free dimension to the nearest
integer (ties toward the floor) and clamping it to at least 1. -/
def thumbnailSize (w h : Nat) : Nat × Nat :=
  if w ≤ 1920 ∧ h ≤ 1080 then (w, h)
  else
    let aspect : ℚ := (w : ℚ) / (h : ℚ)
    if aspect ≤ (1920 : ℚ) / 1080 then
      ((round_aspect ((1080 : ℚ) * aspect) (fun n => |aspect - (n : ℚ) / 1080|)).toNat, 1080)
    else
      (1920,
        (round_aspect ((1920 : ℚ) / aspect)
          (fun n => if n = 0 then 0 else |aspect - (1920 : ℚ) / (n : ℚ)|)).toNat)

/-- The resize step (src/app.py lines 66-68): only when width exceeds
1920 or height exceeds 1080 is `image.thumbnail(MAX_IMAGE_SIZE,
LANCZOS)` called; `thumbnail` resamples only when the selected size
differs from the current size. -/
def resizeStep (rs : Resampler) (img : Img) : Img :=
  if 1920 < img.width ∨ 1080 < img.height then
    let s := thumbnailSize img.width img.height
    if s.1 = img.width ∧ s.2 = img.height then img
    else { img with width := s.1, height := s.2, px := rs img s.1 s.2 }
  else img

/-! ## Metrics (src/app.py lines 89-98) -/

/-- Round-half-to-even to an integer, as Python's builtin `round`
behaves on an exactly representable value. -/
def bankersRound (q : ℚ) : ℤ :=
  let f := qfloor q
  let r := q - (f : ℚ)
  if r < 1 / 2 then f else if 1 / 2 < r then f + 1 else if f % 2 = 0 then f else f + 1

/-- Python `round(x, ndigits)` on the rational model of the float
computation. -/
def pyRound (q : ℚ) (ndigits : Nat) : ℚ := (bankersRound (q * 10 ^ ndigits) : ℚ) / 10 ^ ndigits

/-- The success payload of `process_image` (src/app.py lines 92-99). -/
structure Processed where
  image_data : String
  original_size_kb : ℚ
  final_size_kb : ℚ
  compression_ratio : ℚ
  dimensions : Nat × Nat
deriving DecidableEq

/-- Which step of the pipeline raised: base64 decoding
(`binascii.Error`/`ValueError`, src/app.py line 44), the decoded-size
guard (`ValueError`, line 48), or image identification
(`UnidentifiedImageError`, line 51).  The `str(e)` each carries is
`message` below. -/
inductive Failure
  | decodeFailed (msg : String)
  | tooLarge (limitMB : Nat)
  | unidentifiedImage
deriving DecidableEq

/-- The `str(e)` the except-branch of `process_image` reports. -/
def Failure.message : Failure → String
  | .decodeFailed m => m
  | .tooLarge n => "Image too large. Maximum size is " ++ toString n ++ "MB"
  | .unidentifiedImage => "cannot identify image file"

/-! ## The pipeline -/

/-- The pipeline from the decoded byte buffer on (src/app.py lines
46-99): size guard on the decoded bytes, image identification, EXIF
transposition, mode normalization, bounding resize, JPEG
serialisation, re-encoding to a data URL, and the metrics. -/
def process_bytes (dec : Decoder) (rs : Resampler) (enc : Encoder) (image_bytes : List Nat) :
    Except Failure Processed :=
  if MAX_FILE_SIZE_MB * 1024 * 1024 < image_bytes.length then
    .error (.tooLarge MAX_FILE_SIZE_MB)
  else
    match dec image_bytes with
    | none => .error .unidentifiedImage
    | some image =>
      let i1 := exif_transpose image
      let i2 := normalizeMode i1
      let i3 := resizeStep rs i2
      let processed_bytes := enc i3
      let final_size_kb : ℚ := (processed_bytes.length : ℚ) / 1024
      let original_size_kb : ℚ := (image_bytes.length : ℚ) / 1024
      .ok
        { image_data := "data:image/jpeg;base64," ++ natsToString (b64encode processed_bytes)
          original_size_kb := pyRound original_size_kb 1
          final_size_kb := pyRound final_size_kb 1
          compression_ratio :=
            if 0 < final_size_kb then pyRound (original_size_kb / final_size_kb) 2 else 1
          dimensions := (i3.width, i3.height) }

/-- `process_image` up to the final dict: strip the optional data-URL
prefix, base64-decode, then `process_bytes`. -/
def process_core (dec : Decoder) (rs : Resampler) (enc : Encoder) (s : String) :
    Except Failure Processed :=
  match b64decode (extractPayload s) with
  | .error m => .error (.decodeFailed m)
  | .ok image_bytes => process_bytes dec rs enc image_bytes

/-- The dict `process_image` returns: on success `success=True` with
the payload fields, on any caught exception `success=False` with the
error string (src/app.py lines 92-105). -/
structure PResult where
  success : Bool
  image_data : Option String
  original_size_kb : Option ℚ
  final_size_kb : Option ℚ
  compression_ratio : Option ℚ
  dimensions : Option (Nat × Nat)
  error : Option String
deriving DecidableEq

/-- `process_image` (src/app.py lines 28-105). -/
def process_image (dec : Decoder) (rs : Resampler) (enc : Encoder) (s : String) : PResult :=
  match process_core dec rs enc s with
  | .ok r =>
    { success := true, image_data := some r.image_data,
      original_size_kb := some r.original_size_kb, final_size_kb := some r.final_size_kb,
      compression_ratio := some r.compression_ratio, dimensions := some r.dimensions,
      error := none }
  | .error f =>
    { success := false, image_data := none, original_size_kb := none, final_size_kb := none,
      compression_ratio := none, dimensions := none, error := some f.message }

/-! ## The create-record flow (src/app.py lines 146-198) -/

/-- A billboard record as `create_billboard` assembles it. -/
structure Billboard where
  id : String
  title : String
  location : String
  company : Option String
  description : Option String
  image_data : String
  views : Nat
  created_at : String
  updated_at : String

/-- Python truthiness of an optional string field: missing or empty is
falsy (`if field not in data or not data[field]`). -/
def falsy : Option String → Bool
  | none => true
  | some s => s.isEmpty

/-- The request body of `POST /billboards`. -/
structure ReqData where
  title : Option String
  location : Option String
  image_data : Option String
  company : Option String
  description : Option String

/-- The visible outcome of `create_billboard`: a 400 for a missing
field, a 400 with the processing error, or a 201 with the inserted
record. -/
inductive CreateResp
  | missingField (field : String)
  | processingFailed (msg : String)
  | created (rec : Billboard)

/-- `create_billboard` over an in-memory store (the Supabase table as
a list of records; `insert` appends and reports the row back).
Returns the response and the store after the call. -/
def create_billboard (dec : Decoder) (rs : Resampler) (enc : Encoder) (d : ReqData)
    (store : List Billboard) (billboard_id now : String) : CreateResp × List Billboard :=
  if falsy d.title then (.missingField "title", store)
  else if falsy d.location then (.missingField "location", store)
  else if falsy d.image_data then (.missingField "image_data", store)
  else
    match process_core dec rs enc (d.image_data.getD "") with
    | .error f => (.processingFailed f.message, store)
    | .ok r =>
      let rec_ : Billboard :=
        { id := billboard_id, title := (d.title.getD "").trim,
          location := (d.location.getD "").trim,
          company := d.company.bind (fun c => if c.isEmpty then none else some c.trim),
          description := d.description.bind (fun c => if c.isEmpty then none else some c.trim),
          image_data := r.image_data, views := 0, created_at := now, updated_at := now }
      (.created rec_, store ++ [rec_])

/-! ## Spec-side definitions, for refinement comparison only -/

/-- Modelled from the spec: the alpha-weighted blend the spec claims
for compositing one channel over an opaque white background,
`out = src*alpha + white*(1-alpha)` with `alpha = a/255`. -/
def specWhiteBlend (src a : ℚ) : ℚ := src * (a / 255) + 255 * (1 - a / 255)

/-- Modelled from the spec: strict (RFC 4648) base64 validity of a
payload — length a multiple of 4, alphabet characters followed by at
most two `=` pads. -/
def strictBase64 (s : String) : Bool :=
  let cs := s.data.map Char.toNat
  let dataPart := cs.takeWhile (fun c => (b64val c).isSome)
  let rest := cs.drop dataPart.length
  cs.length % 4 = 0 && rest.length ≤ 2 && rest.all (fun c => c = 61)

/-! ## Concrete instances used by witnesses and counterexamples -/

/-- A decoder that identifies no byte buffer, as PIL behaves on the
non-image buffers the witnesses feed it. -/
def noDecoder : Decoder := fun _ => none

/-- A trivial resampler (the claims never constrain resampled pixel
content). -/
def anyResampler : Resampler := fun _ _ _ _ _ => (0, 0, 0, 0)

/-- A 1x1 opaque RGB test image without EXIF orientation. -/
def rgbImg : Img :=
  { mode := .RGB, width := 1, height := 1, orientation := 0,
    palette := fun _ => (0, 0, 0), px := fun _ _ => (0, 0, 0, 0) }

/-- A decoder that identifies every buffer as `rgbImg`. -/
def rgbDecoder : Decoder := fun _ => some rgbImg

/-- An encoder producing a fixed 7-byte output. -/
def enc7 : Encoder := fun _ => List.replicate 7 0

/-- An encoder producing a fixed 1-byte output. -/
def enc1 : Encoder := fun _ => [0]

/-- A 1x1 fully transparent black `LA` image. -/
def laImg : Img :=
  { mode := .LA, width := 1, height := 1, orientation := 0,
    palette := fun _ => (0, 0, 0), px := fun _ _ => (0, 0, 0, 0) }

/-- A 2x1 `RGBA` image: a half-transparent pure red pixel at (0,0). -/
def rgbaImg : Img :=
  { mode := .RGBA, width := 2, height := 1, orientation := 0,
    palette := fun _ => (0, 0, 0), px := fun _ _ => (200, 0, 0, 51) }

/-- A 1x1 grayscale (`L`) image. -/
def grayImg : Img :=
  { mode := .L, width := 1, height := 1, orientation := 0,
    palette := fun _ => (0, 0, 0), px := fun _ _ => (7, 0, 0, 0) }

/-- An oversized 4000x3000 RGB image. -/
def bigImg : Img :=
  { mode := .RGB, width := 4000, height := 3000, orientation := 0,
    palette := fun _ => (0, 0, 0), px := fun _ _ => (0, 0, 0, 0) }

/-- An in-bounds 800x600 RGB image. -/
def smallImg : Img :=
  { mode := .RGB, width := 800, height := 600, orientation := 0,
    palette := fun _ => (0, 0, 0), px := fun _ _ => (0, 0, 0, 0) }

/-! ## Bridging lemmas -/

theorem qfloor_eq (q : ℚ) : qfloor q = ⌊q⌋ := (Rat.floor_def).symm

theorem qceil_eq (q : ℚ) : qceil q = ⌈q⌉ := by
  rw [qceil, qfloor_eq, Int.floor_neg, neg_neg]

/-! ## Claim C6 -/

/-- C6: for every image already within `MaxWidth × MaxHeight`
(1920 x 1080), the bounding step is the identity: in-bounds images are
never upscaled or resampled, so the output dimensions equal the input
dimensions exactly. -/
theorem claim_C6 (rs : Resampler) (img : Img) (hw : img.width ≤ 1920)
    (hh : img.height ≤ 1080) : resizeStep rs img = img := by
  unfold resizeStep
  rw [if_neg (by omega)]

/-- Witness for C6 at the in-bounds 800x600 image. -/
theorem claim_C6_witness :
    smallImg.width ≤ 1920 ∧ smallImg.height ≤ 1080 ∧
      resizeStep anyResampler smallImg = smallImg :=
  ⟨by decide, by decide, claim_C6 anyResampler smallImg (by decide) (by decide)⟩

/-! ## Claim C8 -/

/-- C8: the pipeline is deterministic — `process_image` is a pure
function of its input and the fixed decoder/resampler/encoder, so a
run's result is unchanged by any other invocations in a batch (there
is no shared mutable state across invocations), and two invocations on
the same input string return the same result. -/
theorem claim_C8 (dec : Decoder) (rs : Resampler) (enc : Encoder) (pre post : List String)
    (s : String) :
    (pre ++ s :: post).map (process_image dec rs enc) =
        pre.map (process_image dec rs enc) ++
          process_image dec rs enc s :: post.map (process_image dec rs enc) ∧
      process_image dec rs enc s = process_image dec rs enc s :=
  ⟨by simp, rfl⟩

/-! ## Claim C9 -/

/-- C9: `process_image` is total over its public interface: every
input string yields a dict that either has `success = true` with the
whole payload and no error key, or `success = false` with the
underlying failure message in the error key; in particular the empty
string yields a `success = false` dict carrying an error string. -/
theorem claim_C9 :
    (∀ (dec : Decoder) (rs : Resampler) (enc : Encoder) (s : String),
        ((process_image dec rs enc s).success = true ∧
          (process_image dec rs enc s).error = none ∧
          (process_image dec rs enc s).image_data.isSome ∧
          (process_image dec rs enc s).original_size_kb.isSome ∧
          (process_image dec rs enc s).final_size_kb.isSome ∧
          (process_image dec rs enc s).compression_ratio.isSome ∧
          (process_image dec rs enc s).dimensions.isSome) ∨
        ((process_image dec rs enc s).success = false ∧
          ∃ f, process_core dec rs enc s = .error f ∧
            (process_image dec rs enc s).error = some (Failure.message f))) ∧
      (process_image noDecoder anyResampler enc1 "").success = false ∧
      (process_image noDecoder anyResampler enc1 "").error = some "cannot identify image file" := by
  refine ⟨fun dec rs enc s => ?_, rfl, rfl⟩
  unfold process_image
  cases h : process_core dec rs enc s with
  | ok r => left; simp
  | error f => right; exact ⟨rfl, f, rfl, rfl⟩

/-! ## Claim C5 -/

/-- C5 counterexample: the payload `"AAAA!"` is not valid base64 (its
length is not a multiple of 4 and `!` is outside the alphabet), yet
the pipeline does not fail with a decode error on it: the lenient
CPython decoder discards the `!`, decodes three zero bytes, and the
pipeline proceeds to the image-identification step, failing there
instead. -/
theorem claim_C5_counterexample :
    strictBase64 "AAAA!" = false ∧
      process_core noDecoder anyResampler enc1 "AAAA!" = .error .unidentifiedImage :=
  ⟨rfl, rfl⟩

/-- C5 (amended): a payload (after stripping an optional prefix at the
first comma) whose base64 decoding fails under Python's lenient
decoder — non-ASCII input, or data characters left over without
completing padding — makes the pipeline fail with the decode error;
characters outside the alphabet are otherwise discarded, so not every
RFC-invalid payload fails.  In particular `"not-valid-base64!!"`
fails with the decode error "Incorrect padding". -/
theorem claim_C5 :
    (∀ (dec : Decoder) (rs : Resampler) (enc : Encoder) (s m : String),
        b64decode (extractPayload s) = .error m →
          process_core dec rs enc s = .error (.decodeFailed m)) ∧
      process_core noDecoder anyResampler enc1 "not-valid-base64!!" =
        .error (.decodeFailed "Incorrect padding") := by
  constructor
  · intro dec rs enc s m h
    unfold process_core
    rw [h]
  · rfl

/-- Witness for C5 at the one-data-character payload `"A"`. -/
theorem claim_C5_witness :
    process_core noDecoder anyResampler enc1 "A" =
      .error (.decodeFailed ("Invalid base64-encoded string: number of data characters (1)" ++
        " cannot be 1 more than a multiple of 4")) :=
  claim_C5.1 noDecoder anyResampler enc1 "A"
    ("Invalid base64-encoded string: number of data characters (1)" ++
      " cannot be 1 more than a multiple of 4") (by rfl)

/-! ## Claim C3 -/

/-- C3: the decoded-byte-size guard runs on the decoded bytes before
any image parsing: a decoded buffer of `MaxUploadBytes + 1` bytes
fails with the too-large error carrying the configured limit whatever
the image decoder would say, and a decoded buffer of exactly
`MaxUploadBytes` bytes that parses as an image succeeds. -/
theorem claim_C3 (dec : Decoder) (rs : Resampler) (enc : Encoder) (big atCap : List Nat)
    (img : Img) :
    (big.length = MAX_FILE_SIZE_MB * 1024 * 1024 + 1 →
        process_bytes dec rs enc big = .error (.tooLarge MAX_FILE_SIZE_MB)) ∧
      (atCap.length = MAX_FILE_SIZE_MB * 1024 * 1024 → dec atCap = some img →
        ∃ r, process_bytes dec rs enc atCap = .ok r) := by
  constructor
  · intro h
    unfold process_bytes
    rw [h, if_pos (by norm_num [MAX_FILE_SIZE_MB])]
  · intro hlen hdec
    unfold process_bytes
    rw [hlen, if_neg (by norm_num [MAX_FILE_SIZE_MB]), hdec]
    exact ⟨_, rfl⟩

/-- Witness for C3: a 10485761-byte buffer is rejected as too large
even under a decoder that accepts everything, and a 10485760-byte
buffer that decodes to an image succeeds. -/
theorem claim_C3_witness :
    process_bytes rgbDecoder anyResampler enc1 (List.replicate 10485761 0) =
        .error (.tooLarge MAX_FILE_SIZE_MB) ∧
      ∃ r, process_bytes rgbDecoder anyResampler enc1 (List.replicate 10485760 0) = .ok r :=
  ⟨(claim_C3 rgbDecoder anyResampler enc1 (List.replicate 10485761 0) [] rgbImg).1
      (by rw [List.length_replicate]; rfl),
    (claim_C3 rgbDecoder anyResampler enc1 [] (List.replicate 10485760 0) rgbImg).2
      (by rw [List.length_replicate]; rfl) rfl⟩

/-! ## Claim C7 -/

/-- C7: the pipeline never partially succeeds — every invocation
returns exactly one of a complete success payload or a single failure
— and in the create-record flow a pipeline failure is reported as a
processing error with the store left exactly as it was (nothing is
persisted). -/
theorem claim_C7 :
    (∀ (dec : Decoder) (rs : Resampler) (enc : Encoder) (s : String),
        (∃ r, process_core dec rs enc s = .ok r) ∨
          (∃ f, process_core dec rs enc s = .error f)) ∧
      (∀ (dec : Decoder) (rs : Resampler) (enc : Encoder) (d : ReqData)
          (store : List Billboard) (bid now s : String) (f : Failure),
        d.image_data = some s → falsy d.title = false → falsy d.location = false →
          falsy d.image_data = false → process_core dec rs enc s = .error f →
            create_billboard dec rs enc d store bid now = (.processingFailed f.message, store)) := by
  constructor
  · intro dec rs enc s
    cases h : process_core dec rs enc s with
    | ok r => exact Or.inl ⟨r, rfl⟩
    | error f => exact Or.inr ⟨f, rfl⟩
  · intro dec rs enc d store bid now s f himg ht hl hi hproc
    unfold create_billboard
    rw [ht, hl, hi]
    simp only [Bool.false_eq_true, if_false]
    rw [himg]
    simp only [Option.getD_some]
    rw [hproc]

/-- Witness for C7: a request whose image payload fails base64
decoding is rejected with the processing error and the store is
unchanged. -/
theorem claim_C7_witness :
    create_billboard noDecoder anyResampler enc1
        ⟨some "t", some "l", some "not-valid-base64!!", none, none⟩ [] "id0" "now0" =
      (.processingFailed "Incorrect padding", []) :=
  claim_C7.2 noDecoder anyResampler enc1
    ⟨some "t", some "l", some "not-valid-base64!!", none, none⟩ [] "id0" "now0"
    "not-valid-base64!!" (.decodeFailed "Incorrect padding") rfl rfl rfl rfl (by rfl)

/-! ## Claim C2 -/

/-- Pillow's `MULDIV255` of `255 * k` is exactly `k` for byte `k`. -/
theorem muldiv255_mul_255 (k : Nat) (hk : k ≤ 255) : muldiv255 255 k = k := by
  unfold muldiv255
  omega

/-- Pillow's `MULDIV255` is `a*b/255` to within the usual rounding. -/
theorem muldiv255_near (a b : Nat) (ha : a ≤ 255) (hb : b ≤ 255) :
    255 * muldiv255 a b ≤ a * b + 127 ∧ a * b ≤ 255 * muldiv255 a b + 127 := by
  unfold muldiv255
  have h : a * b ≤ 65025 := Nat.mul_le_mul ha hb
  generalize a * b = x at h ⊢
  omega

/-- C2 counterexample: the fully transparent black `LA` image has an
alpha channel, yet the pipeline's mode normalization sends its pixel
to black `(0,0,0)` via `convert('RGB')` instead of compositing it over
white, which the spec's blend would make `255`. -/
theorem claim_C2_counterexample :
    Mode.hasAlphaChannel laImg.mode = true ∧
      (normalizeMode laImg).px 0 0 = (0, 0, 0, 0) ∧
      specWhiteBlend 0 0 = 255 ∧ (0 : Nat) ≠ 255 := by
  refine ⟨rfl, rfl, ?_, by decide⟩
  norm_num [specWhiteBlend]

/-- C2 (amended): only `RGBA` inputs are composited over an opaque
white background — per channel the paste value is within 1/2 of the
spec blend `src*alpha + 255*(1-alpha)` — while every other non-RGB/L
mode (including the alpha-carrying `LA`) goes through `convert('RGB')`
with any alpha discarded; the normalized output never has an alpha
channel, and grayscale-without-alpha (`L`) sources pass through
unchanged. -/
theorem claim_C2 :
    (∀ img : Img, Mode.hasAlphaChannel (normalizeMode img).mode = false) ∧
      (∀ img : Img, img.mode = .RGBA →
        (normalizeMode img).mode = .RGB ∧
          ∀ x y, (normalizeMode img).px x y =
            (pasteBlend (img.px x y).2.2.2 255 (img.px x y).1,
              pasteBlend (img.px x y).2.2.2 255 (img.px x y).2.1,
              pasteBlend (img.px x y).2.2.2 255 (img.px x y).2.2.1, 0)) ∧
      (∀ src a : Nat, src ≤ 255 → a ≤ 255 →
        |(pasteBlend a 255 src : ℚ) - specWhiteBlend src a| ≤ 1 / 2) ∧
      (∀ img : Img, img.mode = .L → normalizeMode img = img) := by
  refine ⟨fun img => ?_, fun img h => ?_, fun src a hsrc ha => ?_, fun img h => ?_⟩
  · unfold normalizeMode
    split_ifs with h1 h2
    · rcases h1 with h | h <;> rw [h] <;> rfl
    · rfl
    · rfl
  · have hn : ¬(img.mode = .RGB ∨ img.mode = .L) := by simp [h]
    unfold normalizeMode
    rw [if_neg hn, if_pos h]
    exact ⟨rfl, fun x y => rfl⟩
  · have hblend : pasteBlend a 255 src = (255 - a) + muldiv255 src a := by
      unfold pasteBlend
      rw [muldiv255_mul_255 (255 - a) (by omega)]
    obtain ⟨hu, hl⟩ := muldiv255_near src a hsrc ha
    have huQ : (255 : ℚ) * muldiv255 src a ≤ (src : ℚ) * a + 127 := by exact_mod_cast hu
    have hlQ : (src : ℚ) * a ≤ 255 * muldiv255 src a + 127 := by exact_mod_cast hl
    rw [hblend]
    have hcast : (((255 - a : Nat) + muldiv255 src a : Nat) : ℚ) =
        (255 - (a : ℚ)) + (muldiv255 src a : ℚ) := by
      push_cast [Nat.cast_sub ha]
      ring
    rw [hcast]
    unfold specWhiteBlend
    rw [abs_le]
    constructor <;> [nlinarith; nlinarith]
  · unfold normalizeMode
    rw [if_pos (Or.inr h)]

/-- Witness for C2: the half-transparent red `RGBA` pixel is
white-composited with the paste blend (within 1/2 of the spec blend),
and the grayscale image passes through untouched. -/
theorem claim_C2_witness :
    (normalizeMode rgbaImg).mode = .RGB ∧
      (normalizeMode rgbaImg).px 0 0 =
        (pasteBlend 51 255 200, pasteBlend 51 255 0, pasteBlend 51 255 0, 0) ∧
      |(pasteBlend 51 255 200 : ℚ) - specWhiteBlend 200 51| ≤ 1 / 2 ∧
      normalizeMode grayImg = grayImg :=
  ⟨(claim_C2.2.1 rgbaImg rfl).1, (claim_C2.2.1 rgbaImg rfl).2 0 0,
    claim_C2.2.2.1 200 51 (by decide) (by decide), claim_C2.2.2.2 grayImg rfl⟩

/-! ## Claims C10 and C4 -/

/-- The image after EXIF transposition, mode normalization and the
bounding resize — the one handed to the JPEG encoder. -/
def pipelineImage (rs : Resampler) (img : Img) : Img :=
  resizeStep rs (normalizeMode (exif_transpose img))

/-- On a decoded buffer under the size cap whose bytes identify as an
image, `process_bytes` returns exactly the success record built from
the encoder output. -/
theorem process_bytes_ok (dec : Decoder) (rs : Resampler) (enc : Encoder) (bs : List Nat)
    (img : Img) (hdec : dec bs = some img)
    (hlen : ¬(MAX_FILE_SIZE_MB * 1024 * 1024 < bs.length)) :
    process_bytes dec rs enc bs = .ok
      { image_data := "data:image/jpeg;base64," ++
          natsToString (b64encode (enc (pipelineImage rs img))),
        original_size_kb := pyRound ((bs.length : ℚ) / 1024) 1,
        final_size_kb := pyRound (((enc (pipelineImage rs img)).length : ℚ) / 1024) 1,
        compression_ratio := if 0 < ((enc (pipelineImage rs img)).length : ℚ) / 1024
          then pyRound (((bs.length : ℚ) / 1024) /
            (((enc (pipelineImage rs img)).length : ℚ) / 1024)) 2
          else 1,
        dimensions := ((pipelineImage rs img).width, (pipelineImage rs img).height) } := by
  unfold process_bytes pipelineImage
  rw [if_neg hlen, hdec]

/-- C10: on success, the reported metrics are rounded —
`original_size_kb` and `final_size_kb` to 1 decimal place and
`compression_ratio` to 2 decimal places — and the ratio is computed
from the unrounded kilobyte values before its own rounding. -/
theorem claim_C10 (dec : Decoder) (rs : Resampler) (enc : Encoder) (bs : List Nat) (img : Img)
    (hdec : dec bs = some img) (hlen : ¬(MAX_FILE_SIZE_MB * 1024 * 1024 < bs.length)) :
    (process_bytes dec rs enc bs).map (fun r => r.original_size_kb) =
        .ok (pyRound ((bs.length : ℚ) / 1024) 1) ∧
      (process_bytes dec rs enc bs).map (fun r => r.final_size_kb) =
        .ok (pyRound (((enc (pipelineImage rs img)).length : ℚ) / 1024) 1) ∧
      (process_bytes dec rs enc bs).map (fun r => r.compression_ratio) =
        .ok (if 0 < ((enc (pipelineImage rs img)).length : ℚ) / 1024
          then pyRound (((bs.length : ℚ) / 1024) /
            (((enc (pipelineImage rs img)).length : ℚ) / 1024)) 2
          else 1) := by
  rw [process_bytes_ok dec rs enc bs img hdec hlen]
  exact ⟨rfl, rfl, rfl⟩

/-- Witness for C10 on the 3-byte buffer with the 1-byte encoder. -/
theorem claim_C10_witness :
    (process_bytes rgbDecoder anyResampler enc1 [0, 0, 0]).map (fun r => r.original_size_kb) =
        .ok (pyRound ((([0, 0, 0] : List Nat).length : ℚ) / 1024) 1) ∧
      (process_bytes rgbDecoder anyResampler enc1 [0, 0, 0]).map (fun r => r.final_size_kb) =
        .ok (pyRound (((enc1 (pipelineImage anyResampler rgbImg)).length : ℚ) / 1024) 1) ∧
      (process_bytes rgbDecoder anyResampler enc1 [0, 0, 0]).map (fun r => r.compression_ratio) =
        .ok (if 0 < ((enc1 (pipelineImage anyResampler rgbImg)).length : ℚ) / 1024
          then pyRound (((([0, 0, 0] : List Nat).length : ℚ) / 1024) /
            (((enc1 (pipelineImage anyResampler rgbImg)).length : ℚ) / 1024)) 2
          else 1) :=
  claim_C10 rgbDecoder anyResampler enc1 [0, 0, 0] rgbImg rfl (by norm_num [MAX_FILE_SIZE_MB])

/-- Round half-up when the fractional part exceeds one half. -/
theorem bankersRound_up (q : ℚ) (f : ℤ) (hf : ⌊q⌋ = f) (h2 : 1 / 2 < q - f) :
    bankersRound q = f + 1 := by
  unfold bankersRound
  rw [qfloor_eq, hf, if_neg (by linarith), if_pos h2]

/-- C4 counterexample: a successful run on 3 decoded bytes with a
7-byte encoder output reports `compression_ratio = 0.43`, which is the
quotient rounded to two decimal places, not the exact quotient
`OriginalSizeKB / FinalSizeKB = 3/7` the claim states. -/
theorem claim_C4_counterexample :
    (process_core rgbDecoder anyResampler enc7 "AAAA").map (fun r => r.compression_ratio) =
        .ok (43 / 100 : ℚ) ∧
      (43 / 100 : ℚ) ≠ ((3 : ℚ) / 1024) / ((7 : ℚ) / 1024) := by
  constructor
  · have h1 : process_core rgbDecoder anyResampler enc7 "AAAA" =
        process_bytes rgbDecoder anyResampler enc7 [0, 0, 0] := rfl
    rw [h1, process_bytes_ok rgbDecoder anyResampler enc7 [0, 0, 0] rgbImg rfl
      (by norm_num [MAX_FILE_SIZE_MB])]
    have hlen7 : ((enc7 (pipelineImage anyResampler rgbImg)).length : ℚ) = 7 := by norm_num [enc7]
    have hlen3 : ((([0, 0, 0] : List Nat).length : ℚ)) = 3 := by norm_num
    simp only [Except.map, hlen7, hlen3]
    rw [if_pos (by norm_num)]
    have hq : ((3 : ℚ) / 1024) / ((7 : ℚ) / 1024) * 10 ^ 2 = 300 / 7 := by norm_num
    unfold pyRound
    rw [hq, bankersRound_up (300 / 7) 42 (by norm_num [Int.floor_eq_iff]) (by norm_num)]
    norm_num
  · norm_num

/-- C4 (amended): on success `compression_ratio` is
`OriginalSizeKB / FinalSizeKB` rounded to two decimal places (computed
from the unrounded kilobyte values), defined as `1` when `FinalSizeKB`
is `0`, and not clamped — quotients below 1 are reported as rounded. -/
theorem claim_C4 (dec : Decoder) (rs : Resampler) (enc : Encoder) (bs : List Nat) (img : Img)
    (hdec : dec bs = some img) (hlen : ¬(MAX_FILE_SIZE_MB * 1024 * 1024 < bs.length)) :
    (0 < ((enc (pipelineImage rs img)).length : ℚ) / 1024 ∧
        (process_bytes dec rs enc bs).map (fun r => r.compression_ratio) =
          .ok (pyRound (((bs.length : ℚ) / 1024) /
            (((enc (pipelineImage rs img)).length : ℚ) / 1024)) 2)) ∨
      (((enc (pipelineImage rs img)).length : ℚ) / 1024 = 0 ∧
        (process_bytes dec rs enc bs).map (fun r => r.compression_ratio) = .ok 1) := by
  rw [process_bytes_ok dec rs enc bs img hdec hlen]
  by_cases h : 0 < ((enc (pipelineImage rs img)).length : ℚ) / 1024
  · exact Or.inl ⟨h, by simp only [Except.map]; rw [if_pos h]⟩
  · have h0 : ((enc (pipelineImage rs img)).length : ℚ) / 1024 = 0 :=
      le_antisymm (not_lt.mp h) (by positivity)
    exact Or.inr ⟨h0, by simp only [Except.map]; rw [if_neg h]⟩

/-- Witness for C4 on the 3-byte buffer with the 7-byte encoder. -/
theorem claim_C4_witness :
    0 < ((enc7 (pipelineImage anyResampler rgbImg)).length : ℚ) / 1024 ∧
        (process_bytes rgbDecoder anyResampler enc7 [0, 0, 0]).map
            (fun r => r.compression_ratio) =
          .ok (pyRound (((([0, 0, 0] : List Nat).length : ℚ) / 1024) /
            (((enc7 (pipelineImage anyResampler rgbImg)).length : ℚ) / 1024)) 2) := by
  rcases claim_C4 rgbDecoder anyResampler enc7 [0, 0, 0] rgbImg rfl
      (by norm_num [MAX_FILE_SIZE_MB]) with h | h
  · exact h
  · exact absurd h.1 (by norm_num [enc7])

/-! ## Claim C1 -/

/-- `round_aspect` picks the floor or the ceiling of its argument
(before the clamp to 1). -/
theorem round_aspect_mem (q : ℚ) (key : ℤ → ℚ) :
    round_aspect q key = max ⌊q⌋ 1 ∨ round_aspect q key = max ⌈q⌉ 1 := by
  unfold round_aspect
  rw [qfloor_eq, qceil_eq]
  split_ifs with h
  · exact Or.inl rfl
  · exact Or.inr rfl

/-- For a nonnegative argument bounded by `B ≥ 1`, `round_aspect`
lands in `[1, B]` and within 1 of the argument. -/
theorem round_aspect_le_abs (q : ℚ) (key : ℤ → ℚ) (B : ℕ) (hq : 0 ≤ q) (hB : 1 ≤ B)
    (hqB : q ≤ (B : ℚ)) :
    (round_aspect q key).toNat ≤ B ∧ |((round_aspect q key).toNat : ℚ) - q| ≤ 1 := by
  have hfl0 : 0 ≤ ⌊q⌋ := Int.floor_nonneg.mpr hq
  have hclB : ⌈q⌉ ≤ (B : ℤ) := Int.ceil_le.mpr (by exact_mod_cast hqB)
  have hflB : ⌊q⌋ ≤ (B : ℤ) := le_trans (Int.floor_le_ceil q) hclB
  have hfle : (⌊q⌋ : ℚ) ≤ q := Int.floor_le q
  have hflt : q - 1 < (⌊q⌋ : ℚ) := Int.sub_one_lt_floor q
  have hcge : q ≤ (⌈q⌉ : ℚ) := Int.le_ceil q
  have hclt : (⌈q⌉ : ℚ) < q + 1 := Int.ceil_lt_add_one q
  have hcl0 : 0 ≤ ⌈q⌉ := le_trans hfl0 (Int.floor_le_ceil q)
  rcases round_aspect_mem q key with h | h <;> rw [h]
  · have hm0 : (0 : ℤ) ≤ max ⌊q⌋ 1 := le_trans zero_le_one (le_max_right _ _)
    have hmQ : ((max ⌊q⌋ 1).toNat : ℚ) = ((max ⌊q⌋ 1 : ℤ) : ℚ) := by
      exact_mod_cast Int.toNat_of_nonneg hm0
    constructor
    · rw [Int.toNat_le]
      exact max_le hflB (by exact_mod_cast hB)
    · rw [hmQ]
      by_cases h1 : 1 ≤ ⌊q⌋
      · rw [max_eq_left h1, abs_le]
        constructor <;> linarith
      · rw [max_eq_right (by omega : ⌊q⌋ ≤ 1)]
        have hlt1 : q < 1 := by
          have hle0 : (⌊q⌋ : ℚ) ≤ 0 := by exact_mod_cast (by omega : ⌊q⌋ ≤ 0)
          have := Int.lt_floor_add_one q
          linarith
        rw [abs_le]
        push_cast
        constructor <;> linarith
  · have hm0 : (0 : ℤ) ≤ max ⌈q⌉ 1 := le_trans zero_le_one (le_max_right _ _)
    have hmQ : ((max ⌈q⌉ 1).toNat : ℚ) = ((max ⌈q⌉ 1 : ℤ) : ℚ) := by
      exact_mod_cast Int.toNat_of_nonneg hm0
    constructor
    · rw [Int.toNat_le]
      exact max_le hclB (by exact_mod_cast hB)
    · rw [hmQ]
      by_cases h1 : 1 ≤ ⌈q⌉
      · rw [max_eq_left h1, abs_le]
        constructor <;> linarith
      · rw [max_eq_right (by omega : ⌈q⌉ ≤ 1)]
        have hle0 : q ≤ 0 := by
          have : (⌈q⌉ : ℚ) ≤ 0 := by exact_mod_cast (by omega : ⌈q⌉ ≤ 0)
          linarith
        rw [abs_le]
        push_cast
        constructor <;> linarith

/-- The size `thumbnail((1920, 1080))` selects for an oversized image:
both dimensions fit the box, neither grows, and the exact
aspect-preserving value of the free dimension is matched within one
pixel (the constrained dimension sits on the box edge chosen by the
larger scale-down factor). -/
theorem thumbnailSize_spec (w h : Nat) (hw : 0 < w) (hh : 0 < h)
    (hover : 1920 < w ∨ 1080 < h) :
    (thumbnailSize w h).1 ≤ 1920 ∧ (thumbnailSize w h).2 ≤ 1080 ∧
      (thumbnailSize w h).1 ≤ w ∧ (thumbnailSize w h).2 ≤ h ∧
      (((thumbnailSize w h).2 = 1080 ∧
          |((thumbnailSize w h).1 : ℚ) - 1080 * w / h| ≤ 1) ∨
        ((thumbnailSize w h).1 = 1920 ∧
          |((thumbnailSize w h).2 : ℚ) - 1920 * h / w| ≤ 1)) := by
  have hhQ : (0 : ℚ) < (h : ℚ) := by exact_mod_cast hh
  have hwQ : (0 : ℚ) < (w : ℚ) := by exact_mod_cast hw
  unfold thumbnailSize
  rw [if_neg (by omega)]
  dsimp only
  split_ifs with hb
  · have hcross : w * 1080 ≤ 1920 * h := by
      have := (div_le_div_iff₀ hhQ (by norm_num : (0 : ℚ) < 1080)).mp hb
      exact_mod_cast this
    have h1080 : 1080 < h := by omega
    have hhge : (1080 : ℚ) ≤ (h : ℚ) := by exact_mod_cast Nat.le_of_lt h1080
    have hq0 : 0 ≤ (1080 : ℚ) * ((w : ℚ) / (h : ℚ)) := by positivity
    have hq19 : (1080 : ℚ) * ((w : ℚ) / (h : ℚ)) ≤ (1920 : ℚ) := by
      rw [← mul_div_assoc, div_le_iff₀ hhQ]
      have : ((1080 * w : ℕ) : ℚ) ≤ ((1920 * h : ℕ) : ℚ) := by exact_mod_cast (by omega)
      push_cast at this
      linarith
    have hqw : (1080 : ℚ) * ((w : ℚ) / (h : ℚ)) ≤ ((w : ℕ) : ℚ) := by
      rw [← mul_div_assoc, div_le_iff₀ hhQ]
      have := mul_le_mul_of_nonneg_left hhge (le_of_lt hwQ)
      linarith
    obtain ⟨hB19, habs⟩ :=
      round_aspect_le_abs ((1080 : ℚ) * ((w : ℚ) / (h : ℚ)))
        (fun n => |(w : ℚ) / (h : ℚ) - (n : ℚ) / 1080|) 1920 hq0 (by norm_num) hq19
    obtain ⟨hBw, -⟩ :=
      round_aspect_le_abs ((1080 : ℚ) * ((w : ℚ) / (h : ℚ)))
        (fun n => |(w : ℚ) / (h : ℚ) - (n : ℚ) / 1080|) w hq0 hw hqw
    refine ⟨hB19, by norm_num, hBw, by omega, Or.inl ⟨rfl, ?_⟩⟩
    rw [mul_div_assoc]
    exact habs
  · have hb' : (1920 : ℚ) / 1080 < (w : ℚ) / (h : ℚ) := not_le.mp hb
    have hcross : 1920 * h < w * 1080 := by
      have := (div_lt_div_iff₀ (by norm_num : (0 : ℚ) < 1080) hhQ).mp hb'
      exact_mod_cast this
    have hw1920 : 1920 < w := by omega
    have hwge : (1920 : ℚ) ≤ (w : ℚ) := by exact_mod_cast Nat.le_of_lt hw1920
    rw [div_div_eq_mul_div]
    have hq0 : 0 ≤ (1920 : ℚ) * (h : ℚ) / (w : ℚ) := by positivity
    have hq10 : (1920 : ℚ) * (h : ℚ) / (w : ℚ) ≤ (1080 : ℚ) := by
      rw [div_le_iff₀ hwQ]
      have : ((1920 * h : ℕ) : ℚ) ≤ ((1080 * w : ℕ) : ℚ) := by exact_mod_cast (by omega)
      push_cast at this
      linarith
    have hqh : (1920 : ℚ) * (h : ℚ) / (w : ℚ) ≤ ((h : ℕ) : ℚ) := by
      rw [div_le_iff₀ hwQ]
      have := mul_le_mul_of_nonneg_left hwge (le_of_lt hhQ)
      linarith
    obtain ⟨hB10, habs⟩ :=
      round_aspect_le_abs ((1920 : ℚ) * (h : ℚ) / (w : ℚ))
        (fun n => if n = 0 then 0 else |(w : ℚ) / (h : ℚ) - (1920 : ℚ) / (n : ℚ)|) 1080
        hq0 (by norm_num) hq10
    obtain ⟨hBh, -⟩ :=
      round_aspect_le_abs ((1920 : ℚ) * (h : ℚ) / (w : ℚ))
        (fun n => if n = 0 then 0 else |(w : ℚ) / (h : ℚ) - (1920 : ℚ) / (n : ℚ)|) h
        hq0 hh hqh
    exact ⟨by norm_num, hB10, by omega, hBh, Or.inr ⟨rfl, habs⟩⟩

/-- Under the oversize guard, the dimensions after the resize step are
exactly the thumbnail size. -/
theorem resizeStep_dims (rs : Resampler) (img : Img)
    (hover : 1920 < img.width ∨ 1080 < img.height) :
    (resizeStep rs img).width = (thumbnailSize img.width img.height).1 ∧
      (resizeStep rs img).height = (thumbnailSize img.width img.height).2 := by
  unfold resizeStep
  rw [if_pos hover]
  dsimp only
  split_ifs with heq
  · exact ⟨heq.1.symm, heq.2.symm⟩
  · exact ⟨rfl, rfl⟩

/-- C1: an image whose width exceeds `MaxWidth` (1920) or whose height
exceeds `MaxHeight` (1080) is downscaled so that the output fits the
box, neither dimension grows, and the aspect ratio is preserved within
rounding of one pixel: the branch the larger scale-down factor picks
pins one dimension to the box edge and the other lands within 1 of the
exact aspect-preserving value. -/
theorem claim_C1 (rs : Resampler) (img : Img) (hw : 0 < img.width) (hh : 0 < img.height)
    (hover : 1920 < img.width ∨ 1080 < img.height) :
    (resizeStep rs img).width ≤ 1920 ∧ (resizeStep rs img).height ≤ 1080 ∧
      (resizeStep rs img).width ≤ img.width ∧
      (resizeStep rs img).height ≤ img.height ∧
      (((resizeStep rs img).height = 1080 ∧
          |((resizeStep rs img).width : ℚ) - 1080 * img.width / img.height| ≤ 1) ∨
        ((resizeStep rs img).width = 1920 ∧
          |((resizeStep rs img).height : ℚ) - 1920 * img.height / img.width| ≤ 1)) := by
  obtain ⟨h1, h2⟩ := resizeStep_dims rs img hover
  rw [h1, h2]
  exact thumbnailSize_spec img.width img.height hw hh hover

/-- Witness for C1 at the 4000x3000 image. -/
theorem claim_C1_witness :
    (resizeStep anyResampler bigImg).width ≤ 1920 ∧
      (resizeStep anyResampler bigImg).height ≤ 1080 ∧
      (resizeStep anyResampler bigImg).width ≤ bigImg.width ∧
      (resizeStep anyResampler bigImg).height ≤ bigImg.height ∧
      (((resizeStep anyResampler bigImg).height = 1080 ∧
          |((resizeStep anyResampler bigImg).width : ℚ) -
            1080 * bigImg.width / bigImg.height| ≤ 1) ∨
        ((resizeStep anyResampler bigImg).width = 1920 ∧
          |((resizeStep anyResampler bigImg).height : ℚ) -
            1920 * bigImg.height / bigImg.width| ≤ 1)) :=
  claim_C1 anyResampler bigImg (by decide) (by decide) (Or.inl (by decide))
